import Mathlib

/-!
Shallow embedding of the elastic SDN control-plane supervisor
(`src/ryu_scenario/load_balancer/load_balancer.py`, with the standalone
variant `src/load_balancer.py` embedded where a claim cites it).

External I/O becomes explicit parameters: the switch list returned by
`get_all_switches` (OVS `list-br`) is a `List ℕ` of dpids (switch names
`sN` are identified with their numeric dpid `N`); the per-controller
`/metrics` fetch is a function `ℕ → Option ℕ` (`none` models an
unreachable controller, `some n` a cumulative Packet-In count).  Wall
clock readings (`time.time()` floats in the source) are abstracted to
exact integer instants, one instant per autoscaler tick; packet rates
are exact rationals.  Role POSTs are collected into a returned message
list (they are best-effort in the source: an HTTP failure changes no
supervisor state).
-/

namespace PCNLab

/-- Configuration constant `MIN_CONTROLLERS` of the load balancer. -/
def MIN_CONTROLLERS : ℕ := 2

/-- Configuration constant `MAX_CONTROLLERS` of the load balancer. -/
def MAX_CONTROLLERS : ℕ := 5

/-- Configuration constant `TARGET_LOAD_PER_CONTROLLER` (avg PPS scale-up threshold). -/
def TARGET_LOAD_PER_CONTROLLER : ℚ := 50

/-- Configuration constant `MIN_LOAD_PER_CONTROLLER` (avg PPS scale-down threshold). -/
def MIN_LOAD_PER_CONTROLLER : ℚ := 15

/-- Configuration constant `CHECK_INTERVAL` (seconds between metric polls). -/
def CHECK_INTERVAL : ℤ := 1

/-- Configuration constant `COOLDOWN_TIME` (seconds after a scaling action). -/
def COOLDOWN_TIME : ℤ := 10

/-- Configuration constant `BASE_OFP_PORT` (base TCP port for OpenFlow). -/
def BASE_OFP_PORT : ℕ := 6653

/-- The member set as python's `sorted(list(s))`: the ascending list of
ids.  Implemented by insertion sort on the underlying multiset so that
it evaluates on concrete inputs; `sorted_ids_eq_sort` identifies it with
`Finset.sort`. -/
def sorted_ids (s : Finset ℕ) : List ℕ :=
  Quot.liftOn s.val (List.insertionSort (· ≤ ·)) (fun _ _ h =>
    List.eq_of_perm_of_sorted
      (((List.perm_insertionSort _ _).trans h).trans
        (List.perm_insertionSort _ _).symm)
      (List.sorted_insertionSort _ _)
      (List.sorted_insertionSort _ _))

/-- OpenFlow controller role carried by a role request. -/
inductive Role where
  | MASTER
  | SLAVE
deriving DecidableEq, Repr

/-- One role POST issued by `distribute_switches`: the target controller id,
the switch dpid, the role and the generation id in the JSON body. -/
structure RoleMsg where
  target : ℕ
  dpid : ℕ
  role : Role
  generation_id : ℕ
deriving DecidableEq, Repr

/-- Mutable state of `RyuLoadBalancer` relevant to the claims:
`active_controllers`, `previous_metrics` (per id, previous poll time and
previous cumulative Packet-In count), `CURRENT_GEN_ID`, `is_scaling` and
`last_scale_action_time`. -/
structure BalancerState where
  active_controllers : Finset ℕ
  previous_metrics : ℕ → Option (ℤ × ℕ)
  CURRENT_GEN_ID : ℕ
  is_scaling : Bool
  last_scale_action_time : ℤ

/-- Embeds `RyuLoadBalancer.distribute_switches`: increment
`CURRENT_GEN_ID`, sort the member set ascending, and if neither the
member list nor the switch list is empty, for each switch index assign
the round-robin master `controllers[idx % len(controllers)]` and post a
role request to every active controller (python's `enumerate` loop is
rendered as a flatMap over `List.range switches.length`). -/
def distribute_switches (st : BalancerState) (switches : List ℕ) :
    BalancerState × List RoleMsg :=
  let gen := st.CURRENT_GEN_ID + 1
  let st1 := { st with CURRENT_GEN_ID := gen }
  let controllers := sorted_ids st.active_controllers
  if controllers = [] ∨ switches = [] then (st1, [])
  else
    let msgs := (List.range switches.length).flatMap (fun idx =>
      let assigned := controllers.getD (idx % controllers.length) 0
      controllers.map (fun c =>
        { target := c, dpid := switches.getD idx 0,
          role := if c = assigned then Role.MASTER else Role.SLAVE,
          generation_id := gen }))
    (st1, msgs)

/-- Modelled from the spec's words, for refinement comparison with
`distribute_switches` only: spec 4.E step 1 reads the switch list as a
sorted list, so this variant sorts the switches ascending before running
the same round robin. -/
def distribute_switches_spec_sorted (st : BalancerState) (switches : List ℕ) :
    BalancerState × List RoleMsg :=
  distribute_switches st (List.insertionSort (· ≤ ·) switches)

/-- Python `round(x, 2)` on the packets-per-second value, modelled as exact
rational rounding to two decimal places. -/
def round2 (q : ℚ) : ℚ := (round (q * 100) : ℚ) / 100

/-- Embeds `RyuLoadBalancer._calculate_pps`: read the previous sample
(defaulting to `(now - CHECK_INTERVAL, 0)`), clamp a non-positive time
delta to `0.001`, replace a negative packet delta by the current count,
store the new sample, and return the rounded rate. -/
def calculate_pps (st : BalancerState) (c_id : ℕ) (current_count : ℕ) (now : ℤ) :
    BalancerState × ℚ :=
  let p := (st.previous_metrics c_id).getD (now - CHECK_INTERVAL, 0)
  let time_delta : ℚ :=
    if now - p.1 ≤ 0 then (1 : ℚ) / 1000 else ((now - p.1 : ℤ) : ℚ)
  let packet_delta0 : ℤ := (current_count : ℤ) - (p.2 : ℤ)
  let packet_delta : ℤ := if packet_delta0 < 0 then (current_count : ℤ) else packet_delta0
  ({ st with previous_metrics :=
      Function.update st.previous_metrics c_id (some (now, current_count)) },
   round2 ((packet_delta : ℚ) / time_delta))

/-- Embeds the per-controller delta computation of `get_total_traffic_rate`
in the standalone `src/load_balancer.py`: `delta = count - prev`, and a
negative delta (controller restart) is clamped to `0`. -/
def standalone_delta (count : ℕ) (prev : ℕ) : ℤ :=
  let delta := (count : ℤ) - (prev : ℤ)
  if delta < 0 then 0 else delta

/-- A scaling decision taken by a monitoring tick. -/
inductive Decision where
  | scaleUp
  | scaleDown
deriving DecidableEq, Repr

/-- Embeds the cooldown-guarded decision of the standalone
`run_balancer` loop (`src/load_balancer.py`): the tick is skipped while
`now - last_scale_action_time < COOLDOWN_TIME`; otherwise it calls
`scale_up()` when the average load exceeds the target, or `scale_down()`
when it is below the minimum with more than `MIN_CONTROLLERS` members. -/
def run_balancer_decision (now last : ℤ) (avg : ℚ) (num : ℕ) : Option Decision :=
  if now - last < COOLDOWN_TIME then none
  else if TARGET_LOAD_PER_CONTROLLER < avg then some Decision.scaleUp
  else if avg < MIN_LOAD_PER_CONTROLLER ∧ MIN_CONTROLLERS < num then some Decision.scaleDown
  else none

/-- Embeds `update_ovs_connections`: the ordered `set-controller` target
endpoints (OpenFlow ports) computed from the sorted member set; an empty
member set yields the empty list (the `del-controller` case). -/
def update_ovs_targets (members : Finset ℕ) : List ℕ :=
  (sorted_ids members).map (fun i => BASE_OFP_PORT + i)

/-- Embeds the removal loop of `RyuLoadBalancer._handle_failover`: discard
each dead id from `active_controllers` and pop its `previous_metrics`
entry. -/
def remove_dead : BalancerState → List ℕ → BalancerState
  | st, [] => st
  | st, d :: rest =>
      remove_dead
        { st with
            active_controllers := st.active_controllers.erase d,
            previous_metrics := Function.update st.previous_metrics d none }
        rest

/-- Result of `handle_failover`: the new state, the rewire targets when
`update_ovs_connections` was invoked, and the role messages of the
redistribution. -/
structure FailoverResult where
  state : BalancerState
  rewired : Option (List ℕ)
  msgs : List RoleMsg

/-- Embeds `RyuLoadBalancer._handle_failover`: return unchanged when no
controller died, otherwise remove the dead ids, rewire the data plane,
redistribute roles, and set `last_scale_action_time` to the current
time. -/
def handle_failover (st : BalancerState) (dead : List ℕ) (switches : List ℕ)
    (now : ℤ) : FailoverResult :=
  if dead = [] then ⟨st, none, []⟩
  else
    let st1 := remove_dead st dead
    let targets := update_ovs_targets st1.active_controllers
    let d := distribute_switches st1 switches
    ⟨{ d.1 with last_scale_action_time := now }, some targets, d.2⟩

/-- Accumulated result of the polling loop of
`RyuLoadBalancer.get_traffic_metrics`. -/
structure LoopResult where
  state : BalancerState
  total : ℚ
  rates : List (ℕ × ℚ)
  dead : List ℕ

/-- Embeds the polling loop of `RyuLoadBalancer.get_traffic_metrics`: for
each polled id, an unreachable fetch marks the id dead with rate `-1`;
otherwise `_calculate_pps` updates the stored sample and the rate is
accumulated. -/
def metrics_loop (fetch : ℕ → Option ℕ) (now : ℤ) :
    BalancerState → List ℕ → LoopResult
  | st, [] => ⟨st, 0, [], []⟩
  | st, c :: rest =>
      match fetch c with
      | none =>
          let r := metrics_loop fetch now st rest
          ⟨r.state, r.total, (c, -1) :: r.rates, c :: r.dead⟩
      | some n =>
          let p := calculate_pps st c n now
          let r := metrics_loop fetch now p.1 rest
          ⟨r.state, p.2 + r.total, (c, p.2) :: r.rates, r.dead⟩

/-- Result of `get_traffic_metrics`. -/
structure MetricsResult where
  state : BalancerState
  totalPps : ℚ
  rates : List (ℕ × ℚ)
  dead : List ℕ
  rewired : Option (List ℕ)
  msgs : List RoleMsg

/-- Embeds `RyuLoadBalancer.get_traffic_metrics`: poll every active
controller (the set is iterated in ascending id order), then run
`_handle_failover` on the ids whose fetch was unreachable. -/
def get_traffic_metrics (st : BalancerState) (fetch : ℕ → Option ℕ)
    (switches : List ℕ) (now : ℤ) : MetricsResult :=
  let r := metrics_loop fetch now st (sorted_ids st.active_controllers)
  let f := handle_failover r.state r.dead switches now
  ⟨f.state, r.total, r.rates, r.dead, f.rewired, f.msgs⟩

/-- The ids whose metrics fetch signals unreachable on a tick, in the
iteration order of the polling loop. -/
def dead_ids (st : BalancerState) (fetch : ℕ → Option ℕ) : List ℕ :=
  (sorted_ids st.active_controllers).filter (fun c => (fetch c).isNone)

/-- Embeds the scaling decision of `RyuLoadBalancer.run` (auto mode,
`is_scaling` gate and cooldown check, then the threshold comparisons);
when a branch fires it sets `is_scaling` and `last_scale_action_time`
before spawning the worker thread. -/
def scaling_decision (st : BalancerState) (num_active : ℕ) (avg : ℚ)
    (now : ℤ) (auto : Bool) : BalancerState × Option Decision :=
  if auto then
    if st.is_scaling = false ∧ COOLDOWN_TIME < now - st.last_scale_action_time then
      if TARGET_LOAD_PER_CONTROLLER < avg then
        if num_active < MAX_CONTROLLERS then
          ({ st with is_scaling := true, last_scale_action_time := now },
           some Decision.scaleUp)
        else (st, none)
      else if avg < MIN_LOAD_PER_CONTROLLER ∧ MIN_CONTROLLERS < num_active then
        ({ st with is_scaling := true, last_scale_action_time := now },
         some Decision.scaleDown)
      else (st, none)
    else (st, none)
  else (st, none)

/-- Result of one iteration of `RyuLoadBalancer.run`. -/
structure TickResult where
  state : BalancerState
  totalPps : ℚ
  rates : List (ℕ × ℚ)
  avgLoad : ℚ
  rewired : Option (List ℕ)
  msgs : List RoleMsg
  decision : Option Decision

/-- Embeds one iteration of the monitoring loop of `RyuLoadBalancer.run`
at a single time instant `now`: collect metrics (with failover), compute
the average load over the members left after failover, then take the
scaling decision. -/
def run_tick (st : BalancerState) (fetch : ℕ → Option ℕ) (switches : List ℕ)
    (now : ℤ) (auto : Bool) : TickResult :=
  let m := get_traffic_metrics st fetch switches now
  let num_active := m.state.active_controllers.card
  let avg := if 0 < num_active then m.totalPps / (num_active : ℚ) else 0
  let ds := scaling_decision m.state num_active avg now auto
  ⟨ds.1, m.totalPps, m.rates, avg, m.rewired, m.msgs, ds.2⟩

/-- Embeds the `finally` clause shared by `scale_up` and `scale_down`:
`is_scaling = False` and `last_scale_action_time = time.time()`, executed
on every path out of the operation, exception paths included. -/
def scaling_finally (st : BalancerState) (now : ℤ) : BalancerState :=
  { st with is_scaling := false, last_scale_action_time := now }

/-- Result of `scale_up`: final state, role messages of the
redistribution, the allocated controller id (`none` when the MAX guard
rejects), and the ordered values assigned to `is_scaling` during the
call (the python body assigns it exactly once, to `False`, in
`finally`). -/
structure ScaleUpResult where
  state : BalancerState
  msgs : List RoleMsg
  allocated : Option ℕ
  scalingWrites : List Bool

/-- Embeds `RyuLoadBalancer.scale_up`: reject at `MAX_CONTROLLERS`
members; otherwise allocate `max(members)+1` (or `0` when empty), and if
the container start succeeds (`startOk`), add the id, rewire, wait the
warmup, redistribute; the `finally` clause runs on every path. -/
def scale_up (st : BalancerState) (switches : List ℕ) (startOk : Bool)
    (now : ℤ) : ScaleUpResult :=
  if MAX_CONTROLLERS ≤ st.active_controllers.card then
    ⟨scaling_finally st now, [], none, [false]⟩
  else
    let new_id :=
      if st.active_controllers = ∅ then 0
      else WithBot.unbot' 0 st.active_controllers.max + 1
    if startOk then
      let st1 := { st with active_controllers := insert new_id st.active_controllers }
      let d := distribute_switches st1 switches
      ⟨scaling_finally { d.1 with last_scale_action_time := now } now,
       d.2, some new_id, [false]⟩
    else
      ⟨scaling_finally st now, [], some new_id, [false]⟩

/-- Result of `scale_down`, with the same `scalingWrites` reading as
`ScaleUpResult`. -/
structure ScaleDownResult where
  state : BalancerState
  msgs : List RoleMsg
  victim : Option ℕ
  scalingWrites : List Bool

/-- Embeds `RyuLoadBalancer.scale_down`: reject at `MIN_CONTROLLERS`
members; otherwise discard the highest-numbered member, redistribute,
stop the victim container (which discards it again), record the action
time; the `finally` clause runs on every path. -/
def scale_down (st : BalancerState) (switches : List ℕ) (now : ℤ) :
    ScaleDownResult :=
  if st.active_controllers.card ≤ MIN_CONTROLLERS then
    ⟨scaling_finally st now, [], none, [false]⟩
  else
    let victim := WithBot.unbot' 0 st.active_controllers.max
    let st1 := { st with active_controllers := st.active_controllers.erase victim }
    let d := distribute_switches st1 switches
    let st2 := { d.1 with
        active_controllers := d.1.active_controllers.erase victim,
        last_scale_action_time := now }
    ⟨scaling_finally st2 now, d.2, some victim, [false]⟩

/-- Embeds the `is_scaling` field of the `GET /status` response in
`load_balancer_api.py`: it is computed as
`(time.time() - last_scale_action_time) < COOLDOWN_TIME`, not from the
internal `is_scaling` flag. -/
def status_is_scaling (st : BalancerState) (now : ℤ) : Bool :=
  decide (now - st.last_scale_action_time < COOLDOWN_TIME)

/-- One supervisor-lifetime operation that may issue a redistribution
round: an autoscaler tick, a (manual or worker) scale-up or scale-down,
or the direct `distribute_switches` call of the `/init_balancer` route. -/
inductive LBOp where
  | tick (fetch : ℕ → Option ℕ) (switches : List ℕ) (now : ℤ) (auto : Bool)
  | opScaleUp (switches : List ℕ) (startOk : Bool) (now : ℤ)
  | opScaleDown (switches : List ℕ) (now : ℤ)
  | apiDistribute (switches : List ℕ)

/-- Apply one operation to the balancer state, returning the role
messages it issued. -/
def applyOp (st : BalancerState) : LBOp → BalancerState × List RoleMsg
  | .tick fetch sw now auto =>
      let r := run_tick st fetch sw now auto
      (r.state, r.msgs)
  | .opScaleUp sw ok now =>
      let r := scale_up st sw ok now
      (r.state, r.msgs)
  | .opScaleDown sw now =>
      let r := scale_down st sw now
      (r.state, r.msgs)
  | .apiDistribute sw => distribute_switches st sw

/-- Run a sequence of operations, recording after each one the state and
the role messages that operation issued (one redistribution round per
element with nonempty messages). -/
def runTrace (st : BalancerState) : List LBOp → List (BalancerState × List RoleMsg)
  | [] => []
  | op :: ops =>
      let r := applyOp st op
      r :: runTrace r.1 ops

/-- Example state: two live controllers `{0, 1}`, no stored samples,
generation `0`, not scaling, last action at time `0`. -/
def ex_st01 : BalancerState := ⟨{0, 1}, fun _ => none, 0, false, 0⟩

/-- Example state: three live controllers `{0, 1, 2}`. -/
def ex_st012 : BalancerState := ⟨{0, 1, 2}, fun _ => none, 0, false, 0⟩

/-- Example state: five live controllers (the `MAX_CONTROLLERS` bound). -/
def ex_st5 : BalancerState := ⟨{0, 1, 2, 3, 4}, fun _ => none, 0, false, 0⟩

/-- Example state: one live controller `0` with a stored previous sample
`(time 0, count 10)`. -/
def ex_stm : BalancerState :=
  ⟨{0}, Function.update (fun _ => none) 0 (some ((0 : ℤ), (10 : ℕ))), 0, false, 0⟩

/-- Example fetch function: controller 1 is unreachable, all others
report a cumulative count of 9. -/
def ex_fetch : ℕ → Option ℕ := fun c => if c = 1 then none else some 9

/-- Example fetch function: every controller reports a count of 3. -/
def ex_live_fetch : ℕ → Option ℕ := fun _ => some 3

/-! ## Lemmas about the sorted member list -/

lemma sorted_ids_eq_sort (s : Finset ℕ) : sorted_ids s = s.sort (· ≤ ·) := by
  rcases s with ⟨m, hm⟩
  induction m using Quotient.inductionOn with
  | h l =>
    exact @List.eq_of_perm_of_sorted ℕ (· ≤ ·) _ _ _
      ((List.perm_insertionSort _ _).trans (List.mergeSort_perm _ _).symm)
      (List.sorted_insertionSort _ _)
      (Finset.sort_sorted _ _)

lemma mem_sorted_ids {s : Finset ℕ} {c : ℕ} : c ∈ sorted_ids s ↔ c ∈ s := by
  rw [sorted_ids_eq_sort]
  exact Finset.mem_sort _

lemma sorted_ids_eq_nil {s : Finset ℕ} : sorted_ids s = [] ↔ s = ∅ := by
  rw [List.eq_nil_iff_forall_not_mem, Finset.eq_empty_iff_forall_not_mem]
  exact forall_congr' (fun c => not_congr mem_sorted_ids)

lemma sorted_ids_sorted (s : Finset ℕ) : List.Sorted (· ≤ ·) (sorted_ids s) := by
  rw [sorted_ids_eq_sort]
  exact Finset.sort_sorted _ _

/-! ## Lemmas about `distribute_switches` -/

lemma distribute_switches_fst (st : BalancerState) (sw : List ℕ) :
    (distribute_switches st sw).1 =
      { st with CURRENT_GEN_ID := st.CURRENT_GEN_ID + 1 } := by
  unfold distribute_switches
  dsimp only
  split <;> rfl

lemma distribute_switches_gen (st : BalancerState) (sw : List ℕ) :
    (distribute_switches st sw).1.CURRENT_GEN_ID = st.CURRENT_GEN_ID + 1 := by
  rw [distribute_switches_fst]

lemma distribute_switches_msg_gen (st : BalancerState) (sw : List ℕ)
    {m : RoleMsg} (hm : m ∈ (distribute_switches st sw).2) :
    m.generation_id = st.CURRENT_GEN_ID + 1 := by
  unfold distribute_switches at hm
  dsimp only at hm
  split at hm
  · simp at hm
  · simp only [List.mem_flatMap, List.mem_map, List.mem_range] at hm
    obtain ⟨i, _, c, _, rfl⟩ := hm
    rfl

lemma distribute_switches_msg_target (st : BalancerState) (sw : List ℕ)
    {m : RoleMsg} (hm : m ∈ (distribute_switches st sw).2) :
    m.target ∈ st.active_controllers := by
  unfold distribute_switches at hm
  dsimp only at hm
  split at hm
  · simp at hm
  · simp only [List.mem_flatMap, List.mem_map, List.mem_range] at hm
    obtain ⟨i, _, c, hc, rfl⟩ := hm
    exact mem_sorted_ids.mp hc

lemma distribute_switches_mem (st : BalancerState) (sw : List ℕ)
    (hS : sw ≠ []) {i : ℕ} (hi : i < sw.length) {c : ℕ}
    (hc : c ∈ sorted_ids st.active_controllers) :
    ({ target := c, dpid := sw.getD i 0,
       role := if c = (sorted_ids st.active_controllers).getD
           (i % (sorted_ids st.active_controllers).length) 0
         then Role.MASTER else Role.SLAVE,
       generation_id := st.CURRENT_GEN_ID + 1 } : RoleMsg)
      ∈ (distribute_switches st sw).2 := by
  have hM : sorted_ids st.active_controllers ≠ [] := by
    intro h
    rw [h] at hc
    simp at hc
  unfold distribute_switches
  dsimp only
  rw [if_neg (by simp [hM, hS])]
  simp only [List.mem_flatMap, List.mem_map, List.mem_range]
  exact ⟨i, hi, c, hc, rfl⟩

/-! ## Lemmas about `remove_dead` -/

lemma remove_dead_preserves (l : List ℕ) (st : BalancerState) :
    (remove_dead st l).CURRENT_GEN_ID = st.CURRENT_GEN_ID ∧
    (remove_dead st l).is_scaling = st.is_scaling ∧
    (remove_dead st l).last_scale_action_time = st.last_scale_action_time := by
  induction l generalizing st with
  | nil => exact ⟨rfl, rfl, rfl⟩
  | cons d rest ih => exact ih _

lemma remove_dead_active_subset (l : List ℕ) (st : BalancerState) :
    (remove_dead st l).active_controllers ⊆ st.active_controllers := by
  induction l generalizing st with
  | nil => exact fun _ h => h
  | cons d rest ih =>
      exact fun c hc => Finset.erase_subset _ _ (ih _ hc)

lemma remove_dead_pm_none (l : List ℕ) (st : BalancerState) {d : ℕ}
    (h : st.previous_metrics d = none) :
    (remove_dead st l).previous_metrics d = none := by
  induction l generalizing st with
  | nil => exact h
  | cons a rest ih =>
      apply ih
      by_cases hda : d = a
      · subst hda
        simp [Function.update]
      · simp [Function.update, hda, h]

lemma remove_dead_removes (l : List ℕ) (st : BalancerState) {d : ℕ}
    (hd : d ∈ l) :
    d ∉ (remove_dead st l).active_controllers ∧
    (remove_dead st l).previous_metrics d = none := by
  induction l generalizing st with
  | nil => simp at hd
  | cons a rest ih =>
      rcases List.mem_cons.mp hd with rfl | hmem
      · constructor
        · intro hc
          have := remove_dead_active_subset rest _ hc
          simp at this
        · exact remove_dead_pm_none rest _ (by simp [Function.update])
      · exact ih _ hmem

/-! ## Lemmas about `calculate_pps` and `metrics_loop` -/

lemma calculate_pps_fst (st : BalancerState) (c : ℕ) (n : ℕ) (now : ℤ) :
    (calculate_pps st c n now).1 =
      { st with previous_metrics :=
          Function.update st.previous_metrics c (some (now, n)) } := rfl

lemma metrics_loop_preserves (fetch : ℕ → Option ℕ) (now : ℤ) (l : List ℕ)
    (st : BalancerState) :
    (metrics_loop fetch now st l).state.active_controllers = st.active_controllers ∧
    (metrics_loop fetch now st l).state.CURRENT_GEN_ID = st.CURRENT_GEN_ID ∧
    (metrics_loop fetch now st l).state.is_scaling = st.is_scaling ∧
    (metrics_loop fetch now st l).state.last_scale_action_time =
      st.last_scale_action_time := by
  induction l generalizing st with
  | nil => exact ⟨rfl, rfl, rfl, rfl⟩
  | cons c rest ih =>
      rcases hf : fetch c with _ | n
      · simpa [metrics_loop, hf] using ih st
      · simpa [metrics_loop, hf] using ih (calculate_pps st c n now).1

lemma metrics_loop_dead (fetch : ℕ → Option ℕ) (now : ℤ) (l : List ℕ)
    (st : BalancerState) :
    (metrics_loop fetch now st l).dead =
      l.filter (fun c => (fetch c).isNone) := by
  induction l generalizing st with
  | nil => rfl
  | cons c rest ih =>
      rcases hf : fetch c with _ | n
      · simp [metrics_loop, hf, List.filter, ih]
      · simp [metrics_loop, hf, List.filter, ih]

/-! ## Lemmas about `handle_failover` and `get_traffic_metrics` -/

lemma handle_failover_of_ne (st : BalancerState) (dead : List ℕ)
    (sw : List ℕ) (now : ℤ) (h : dead ≠ []) :
    handle_failover st dead sw now =
      ⟨{ (distribute_switches (remove_dead st dead) sw).1 with
           last_scale_action_time := now },
       some (update_ovs_targets (remove_dead st dead).active_controllers),
       (distribute_switches (remove_dead st dead) sw).2⟩ := by
  unfold handle_failover
  rw [if_neg h]

lemma get_traffic_metrics_dead (st : BalancerState) (fetch : ℕ → Option ℕ)
    (sw : List ℕ) (now : ℤ) :
    (get_traffic_metrics st fetch sw now).dead = dead_ids st fetch := by
  unfold get_traffic_metrics dead_ids
  dsimp only
  rw [metrics_loop_dead]

/-- When at least one controller is flagged dead, `get_traffic_metrics`
removes each dead id and its stored sample, rewires, increments the
generation counter, and stamps the action time. -/
lemma get_traffic_metrics_failover (st : BalancerState) (fetch : ℕ → Option ℕ)
    (sw : List ℕ) (now : ℤ) (h : dead_ids st fetch ≠ []) :
    (∀ d ∈ dead_ids st fetch,
        d ∉ (get_traffic_metrics st fetch sw now).state.active_controllers ∧
        (get_traffic_metrics st fetch sw now).state.previous_metrics d = none) ∧
    (get_traffic_metrics st fetch sw now).rewired.isSome = true ∧
    (get_traffic_metrics st fetch sw now).state.CURRENT_GEN_ID =
      st.CURRENT_GEN_ID + 1 ∧
    (get_traffic_metrics st fetch sw now).state.last_scale_action_time = now ∧
    (get_traffic_metrics st fetch sw now).state.is_scaling = st.is_scaling := by
  have hds : (metrics_loop fetch now st (sorted_ids st.active_controllers)).dead =
      dead_ids st fetch :=
    metrics_loop_dead fetch now (sorted_ids st.active_controllers) st
  have hpre := metrics_loop_preserves fetch now (sorted_ids st.active_controllers) st
  set st1 := (metrics_loop fetch now st (sorted_ids st.active_controllers)).state
  have hstate : (get_traffic_metrics st fetch sw now).state =
      (handle_failover st1 (dead_ids st fetch) sw now).state := by
    rw [← hds]
    rfl
  have hrew : (get_traffic_metrics st fetch sw now).rewired =
      (handle_failover st1 (dead_ids st fetch) sw now).rewired := by
    rw [← hds]
    rfl
  rw [handle_failover_of_ne st1 (dead_ids st fetch) sw now h] at hstate hrew
  have hfst := distribute_switches_fst (remove_dead st1 (dead_ids st fetch)) sw
  refine ⟨?_, ?_, ?_, ?_, ?_⟩
  · intro d hdm
    have hrem := remove_dead_removes (dead_ids st fetch) st1 hdm
    constructor
    · intro hmem
      rw [hstate] at hmem
      simp only [hfst] at hmem
      exact hrem.1 hmem
    · rw [hstate]
      simp only [hfst]
      exact hrem.2
  · rw [hrew]
    rfl
  · rw [hstate]
    simp only [hfst]
    rw [((remove_dead_preserves (dead_ids st fetch) st1).1).trans hpre.2.1]
  · rw [hstate]
  · rw [hstate]
    simp only [hfst]
    exact ((remove_dead_preserves (dead_ids st fetch) st1).2.1).trans hpre.2.2.1

/-- The polling result when no controller was flagged dead: failover is a
no-op and no messages are issued. -/
lemma get_traffic_metrics_no_dead (st : BalancerState) (fetch : ℕ → Option ℕ)
    (sw : List ℕ) (now : ℤ) (h : dead_ids st fetch = []) :
    (get_traffic_metrics st fetch sw now).state =
      (metrics_loop fetch now st (sorted_ids st.active_controllers)).state ∧
    (get_traffic_metrics st fetch sw now).msgs = [] := by
  have hds : (metrics_loop fetch now st (sorted_ids st.active_controllers)).dead =
      dead_ids st fetch :=
    metrics_loop_dead fetch now (sorted_ids st.active_controllers) st
  constructor
  · show (handle_failover _ (metrics_loop fetch now st
        (sorted_ids st.active_controllers)).dead sw now).state = _
    rw [hds, h]
    rfl
  · show (handle_failover _ (metrics_loop fetch now st
        (sorted_ids st.active_controllers)).dead sw now).msgs = _
    rw [hds, h]
    rfl

/-- After the metrics phase of a tick, `last_scale_action_time` is either
untouched or stamped with the tick's time by the failover handler. -/
lemma get_traffic_metrics_last (st : BalancerState) (fetch : ℕ → Option ℕ)
    (sw : List ℕ) (now : ℤ) :
    (get_traffic_metrics st fetch sw now).state.last_scale_action_time =
      st.last_scale_action_time ∨
    (get_traffic_metrics st fetch sw now).state.last_scale_action_time = now := by
  by_cases h : dead_ids st fetch = []
  · left
    rw [(get_traffic_metrics_no_dead st fetch sw now h).1]
    exact (metrics_loop_preserves fetch now (sorted_ids st.active_controllers) st).2.2.2
  · right
    exact (get_traffic_metrics_failover st fetch sw now h).2.2.2.1

/-- The generation counter and issued messages of the metrics phase:
either no failover happened (counter untouched, no messages) or the
failover redistribution incremented it once and tagged every message
with the new value. -/
lemma get_traffic_metrics_gen_cases (st : BalancerState) (fetch : ℕ → Option ℕ)
    (sw : List ℕ) (now : ℤ) :
    ((get_traffic_metrics st fetch sw now).state.CURRENT_GEN_ID =
        st.CURRENT_GEN_ID ∧
      (get_traffic_metrics st fetch sw now).msgs = []) ∨
    ((get_traffic_metrics st fetch sw now).state.CURRENT_GEN_ID =
        st.CURRENT_GEN_ID + 1 ∧
      ∀ m ∈ (get_traffic_metrics st fetch sw now).msgs,
        m.generation_id = st.CURRENT_GEN_ID + 1) := by
  have hds : (metrics_loop fetch now st (sorted_ids st.active_controllers)).dead =
      dead_ids st fetch :=
    metrics_loop_dead fetch now (sorted_ids st.active_controllers) st
  have hpre := metrics_loop_preserves fetch now (sorted_ids st.active_controllers) st
  set st1 := (metrics_loop fetch now st (sorted_ids st.active_controllers)).state
  by_cases h : dead_ids st fetch = []
  · left
    refine ⟨?_, (get_traffic_metrics_no_dead st fetch sw now h).2⟩
    rw [(get_traffic_metrics_no_dead st fetch sw now h).1]
    exact hpre.2.1
  · right
    have hmsgs : (get_traffic_metrics st fetch sw now).msgs =
        (handle_failover st1 (dead_ids st fetch) sw now).msgs := by
      rw [← hds]
      rfl
    rw [handle_failover_of_ne st1 (dead_ids st fetch) sw now h] at hmsgs
    refine ⟨(get_traffic_metrics_failover st fetch sw now h).2.2.1, ?_⟩
    intro m hm
    rw [hmsgs] at hm
    have := distribute_switches_msg_gen (remove_dead st1 (dead_ids st fetch)) sw hm
    rw [this, (remove_dead_preserves (dead_ids st fetch) st1).1, hpre.2.1]

/-! ## Lemmas about `scaling_decision` and `run_tick` -/

lemma scaling_decision_cases (st : BalancerState) (n : ℕ) (avg : ℚ)
    (now : ℤ) (auto : Bool) :
    scaling_decision st n avg now auto = (st, none) ∨
    scaling_decision st n avg now auto =
      ({ st with is_scaling := true, last_scale_action_time := now },
        some Decision.scaleUp) ∨
    scaling_decision st n avg now auto =
      ({ st with is_scaling := true, last_scale_action_time := now },
        some Decision.scaleDown) := by
  unfold scaling_decision
  split_ifs <;> simp

lemma scaling_decision_none_of_cooldown (st : BalancerState) (n : ℕ) (avg : ℚ)
    (now : ℤ) (auto : Bool)
    (h : now - st.last_scale_action_time ≤ COOLDOWN_TIME) :
    (scaling_decision st n avg now auto).2 = none := by
  unfold scaling_decision
  split_ifs with h1 h2 <;> try rfl
  all_goals exact absurd h2.2 (not_lt.mpr h)

lemma scaling_decision_fst_of_none (st : BalancerState) (n : ℕ) (avg : ℚ)
    (now : ℤ) (auto : Bool)
    (h : (scaling_decision st n avg now auto).2 = none) :
    (scaling_decision st n avg now auto).1 = st := by
  rcases scaling_decision_cases st n avg now auto with hc | hc | hc <;>
    rw [hc] <;> rw [hc] at h <;> simp_all

lemma scaling_decision_some_scaling (st : BalancerState) (n : ℕ) (avg : ℚ)
    (now : ℤ) (auto : Bool)
    (h : ((scaling_decision st n avg now auto).2).isSome = true) :
    (scaling_decision st n avg now auto).1.is_scaling = true ∧
    (scaling_decision st n avg now auto).1.last_scale_action_time = now := by
  rcases scaling_decision_cases st n avg now auto with hc | hc | hc <;>
    rw [hc] <;> rw [hc] at h <;> simp_all

lemma run_tick_eq (st : BalancerState) (fetch : ℕ → Option ℕ) (sw : List ℕ)
    (now : ℤ) (auto : Bool) :
    run_tick st fetch sw now auto =
      ⟨(scaling_decision (get_traffic_metrics st fetch sw now).state
          (get_traffic_metrics st fetch sw now).state.active_controllers.card
          (if 0 < (get_traffic_metrics st fetch sw now).state.active_controllers.card
            then (get_traffic_metrics st fetch sw now).totalPps /
              ((get_traffic_metrics st fetch sw now).state.active_controllers.card : ℚ)
            else 0)
          now auto).1,
        (get_traffic_metrics st fetch sw now).totalPps,
        (get_traffic_metrics st fetch sw now).rates,
        (if 0 < (get_traffic_metrics st fetch sw now).state.active_controllers.card
          then (get_traffic_metrics st fetch sw now).totalPps /
            ((get_traffic_metrics st fetch sw now).state.active_controllers.card : ℚ)
          else 0),
        (get_traffic_metrics st fetch sw now).rewired,
        (get_traffic_metrics st fetch sw now).msgs,
        (scaling_decision (get_traffic_metrics st fetch sw now).state
          (get_traffic_metrics st fetch sw now).state.active_controllers.card
          (if 0 < (get_traffic_metrics st fetch sw now).state.active_controllers.card
            then (get_traffic_metrics st fetch sw now).totalPps /
              ((get_traffic_metrics st fetch sw now).state.active_controllers.card : ℚ)
            else 0)
          now auto).2⟩ := rfl

/-! ## Lemmas about `scale_up` and `scale_down` -/

lemma scale_up_reject (st : BalancerState) (sw : List ℕ) (ok : Bool) (now : ℤ)
    (h : MAX_CONTROLLERS ≤ st.active_controllers.card) :
    scale_up st sw ok now = ⟨scaling_finally st now, [], none, [false]⟩ := by
  unfold scale_up
  rw [if_pos h]

lemma scale_up_gen_cases (st : BalancerState) (sw : List ℕ) (ok : Bool) (now : ℤ) :
    ((scale_up st sw ok now).state.CURRENT_GEN_ID = st.CURRENT_GEN_ID ∧
      (scale_up st sw ok now).msgs = []) ∨
    ((scale_up st sw ok now).state.CURRENT_GEN_ID = st.CURRENT_GEN_ID + 1 ∧
      ∀ m ∈ (scale_up st sw ok now).msgs,
        m.generation_id = st.CURRENT_GEN_ID + 1) := by
  unfold scale_up
  split_ifs with h1 h2 h3 h4
  · exact Or.inl ⟨rfl, rfl⟩
  · right
    dsimp only
    constructor
    · show (distribute_switches _ sw).1.CURRENT_GEN_ID = _
      rw [distribute_switches_gen]
    · intro m hm
      have hg := distribute_switches_msg_gen _ sw hm
      exact hg
  · exact Or.inl ⟨rfl, rfl⟩
  · right
    dsimp only
    constructor
    · show (distribute_switches _ sw).1.CURRENT_GEN_ID = _
      rw [distribute_switches_gen]
    · intro m hm
      have hg := distribute_switches_msg_gen _ sw hm
      exact hg
  · exact Or.inl ⟨rfl, rfl⟩

lemma scale_down_reject (st : BalancerState) (sw : List ℕ) (now : ℤ)
    (h : st.active_controllers.card ≤ MIN_CONTROLLERS) :
    scale_down st sw now = ⟨scaling_finally st now, [], none, [false]⟩ := by
  unfold scale_down
  rw [if_pos h]

lemma scale_down_gen_cases (st : BalancerState) (sw : List ℕ) (now : ℤ) :
    ((scale_down st sw now).state.CURRENT_GEN_ID = st.CURRENT_GEN_ID ∧
      (scale_down st sw now).msgs = []) ∨
    ((scale_down st sw now).state.CURRENT_GEN_ID = st.CURRENT_GEN_ID + 1 ∧
      ∀ m ∈ (scale_down st sw now).msgs,
        m.generation_id = st.CURRENT_GEN_ID + 1) := by
  unfold scale_down
  split_ifs with h1
  · exact Or.inl ⟨rfl, rfl⟩
  · right
    dsimp only
    constructor
    · show (distribute_switches _ sw).1.CURRENT_GEN_ID = _
      rw [distribute_switches_gen]
    · intro m hm
      have hg := distribute_switches_msg_gen _ sw hm
      exact hg

/-- The highest-numbered live id is a member and dominates every member. -/
lemma max_member (s : Finset ℕ) (hne : s.Nonempty) :
    WithBot.unbot' 0 s.max ∈ s ∧ ∀ c ∈ s, c ≤ WithBot.unbot' 0 s.max := by
  obtain ⟨v, hv⟩ := Finset.max_of_nonempty hne
  rw [hv, WithBot.unbot'_coe]
  exact ⟨Finset.mem_of_max hv, fun c hc => Finset.le_max_of_eq hc hv⟩

/-! ## Generation-counter bookkeeping across whole operations -/

lemma scaling_decision_fst_gen (st : BalancerState) (n : ℕ) (avg : ℚ)
    (now : ℤ) (auto : Bool) :
    (scaling_decision st n avg now auto).1.CURRENT_GEN_ID = st.CURRENT_GEN_ID ∧
    (scaling_decision st n avg now auto).1.active_controllers =
      st.active_controllers ∧
    (scaling_decision st n avg now auto).1.previous_metrics =
      st.previous_metrics := by
  rcases scaling_decision_cases st n avg now auto with hc | hc | hc <;>
    rw [hc] <;> exact ⟨rfl, rfl, rfl⟩

lemma run_tick_gen_cases (st : BalancerState) (fetch : ℕ → Option ℕ)
    (sw : List ℕ) (now : ℤ) (auto : Bool) :
    ((run_tick st fetch sw now auto).state.CURRENT_GEN_ID = st.CURRENT_GEN_ID ∧
      (run_tick st fetch sw now auto).msgs = []) ∨
    ((run_tick st fetch sw now auto).state.CURRENT_GEN_ID =
        st.CURRENT_GEN_ID + 1 ∧
      ∀ m ∈ (run_tick st fetch sw now auto).msgs,
        m.generation_id = st.CURRENT_GEN_ID + 1) := by
  have hstate : (run_tick st fetch sw now auto).state.CURRENT_GEN_ID =
      (get_traffic_metrics st fetch sw now).state.CURRENT_GEN_ID :=
    (scaling_decision_fst_gen _ _ _ _ _).1
  have hmsgs : (run_tick st fetch sw now auto).msgs =
      (get_traffic_metrics st fetch sw now).msgs := rfl
  rcases get_traffic_metrics_gen_cases st fetch sw now with ⟨hg, hm⟩ | ⟨hg, hm⟩
  · exact Or.inl ⟨hstate.trans hg, hmsgs.trans hm⟩
  · refine Or.inr ⟨hstate.trans hg, ?_⟩
    intro m hmem
    exact hm m (hmsgs ▸ hmem)

/-- Every operation leaves the generation counter no smaller, and every
message it issues carries a generation id strictly above the counter at
entry and no greater than the counter at exit. -/
lemma applyOp_gen_spec (st : BalancerState) (op : LBOp) :
    st.CURRENT_GEN_ID ≤ (applyOp st op).1.CURRENT_GEN_ID ∧
    ∀ m ∈ (applyOp st op).2,
      st.CURRENT_GEN_ID < m.generation_id ∧
      m.generation_id ≤ (applyOp st op).1.CURRENT_GEN_ID := by
  cases op with
  | tick f sw now auto =>
      dsimp only [applyOp]
      rcases run_tick_gen_cases st f sw now auto with ⟨hg, hm⟩ | ⟨hg, hm⟩
      · refine ⟨le_of_eq hg.symm, ?_⟩
        intro m hmem
        rw [hm] at hmem
        simp at hmem
      · refine ⟨by omega, ?_⟩
        intro m hmem
        have := hm m hmem
        omega
  | opScaleUp sw ok now =>
      dsimp only [applyOp]
      rcases scale_up_gen_cases st sw ok now with ⟨hg, hm⟩ | ⟨hg, hm⟩
      · refine ⟨le_of_eq hg.symm, ?_⟩
        intro m hmem
        rw [hm] at hmem
        simp at hmem
      · refine ⟨by omega, ?_⟩
        intro m hmem
        have := hm m hmem
        omega
  | opScaleDown sw now =>
      dsimp only [applyOp]
      rcases scale_down_gen_cases st sw now with ⟨hg, hm⟩ | ⟨hg, hm⟩
      · refine ⟨le_of_eq hg.symm, ?_⟩
        intro m hmem
        rw [hm] at hmem
        simp at hmem
      · refine ⟨by omega, ?_⟩
        intro m hmem
        have := hm m hmem
        omega
  | apiDistribute sw =>
      dsimp only [applyOp]
      refine ⟨by rw [distribute_switches_gen]; omega, ?_⟩
      intro m hmem
      have := distribute_switches_msg_gen st sw hmem
      rw [distribute_switches_gen]
      omega

lemma runTrace_msg_gt (ops : List LBOp) (st : BalancerState) :
    ∀ p ∈ runTrace st ops, ∀ m ∈ p.2,
      st.CURRENT_GEN_ID < m.generation_id := by
  induction ops generalizing st with
  | nil =>
      intro p hp
      simp [runTrace] at hp
  | cons op rest ih =>
      intro p hp m hm
      have hp' : p ∈ applyOp st op :: runTrace (applyOp st op).1 rest := hp
      rcases List.mem_cons.mp hp' with rfl | htail
      · exact ((applyOp_gen_spec st op).2 m hm).1
      · exact lt_of_le_of_lt (applyOp_gen_spec st op).1
          (ih (applyOp st op).1 p htail m hm)

/-- Rounding to two decimals preserves nonnegativity. -/
lemma round2_nonneg {q : ℚ} (h : 0 ≤ q) : 0 ≤ round2 q := by
  unfold round2
  apply div_nonneg _ (by norm_num)
  rw [Int.cast_nonneg, round_eq, Int.le_floor]
  push_cast
  linarith

/-! ## Claim theorems -/

/-- C1 (amended): for a nonempty member set and switch list,
`distribute_switches` reads the members as the ascending id list
`sorted_ids` but takes the switch list in enumeration order (it does not
sort it); the switch at index `i` gets MASTER posted to the controller
at position `i mod |M|` of the sorted member list and SLAVE posted to
every other live controller, every message carrying the round's
generation id. -/
theorem claim1_round_robin (st : BalancerState) (sw : List ℕ)
    (_hM : st.active_controllers.Nonempty) (hS : sw ≠ []) :
    (distribute_switches st sw).1.CURRENT_GEN_ID = st.CURRENT_GEN_ID + 1 ∧
    List.Sorted (· ≤ ·) (sorted_ids st.active_controllers) ∧
    (∀ m ∈ (distribute_switches st sw).2,
        m.generation_id = st.CURRENT_GEN_ID + 1 ∧
        m.target ∈ st.active_controllers) ∧
    ∀ i, i < sw.length → ∀ c ∈ sorted_ids st.active_controllers,
      ({ target := c, dpid := sw.getD i 0,
         role := if c = (sorted_ids st.active_controllers).getD
             (i % (sorted_ids st.active_controllers).length) 0
           then Role.MASTER else Role.SLAVE,
         generation_id := st.CURRENT_GEN_ID + 1 } : RoleMsg)
        ∈ (distribute_switches st sw).2 := by
  refine ⟨distribute_switches_gen st sw, sorted_ids_sorted _, ?_, ?_⟩
  · intro m hm
    exact ⟨distribute_switches_msg_gen st sw hm,
      distribute_switches_msg_target st sw hm⟩
  · intro i hi c hc
    exact distribute_switches_mem st sw hS hi hc

/-- Witness for C1 at members `{0, 1, 2}` and switches `[10, 20, 30, 40]`:
index 3 wraps around to the first sorted member, controller 0, which is
posted MASTER for dpid 40 with generation id 1. -/
theorem claim1_round_robin_witness :
    ex_st012.active_controllers.Nonempty ∧ ([10, 20, 30, 40] : List ℕ) ≠ [] ∧
    ({ target := 0, dpid := 40, role := Role.MASTER, generation_id := 1 } : RoleMsg)
      ∈ (distribute_switches ex_st012 [10, 20, 30, 40]).2 := by
  refine ⟨by decide, by decide, ?_⟩
  have h := (claim1_round_robin ex_st012 [10, 20, 30, 40]
    (by decide) (by decide)).2.2.2 3 (by decide) 0 (by decide)
  exact h

/-- C1 counterexample: the claim's "reads both as sorted lists" fails on
the switch side.  With members `{0, 1}` and the unsorted switch
enumeration `[2, 1]`, the code posts MASTER for dpid 1 (at index 1) to
controller 1, whereas the spec-faithful sorted reading
(`distribute_switches_spec_sorted`) posts its MASTER to controller 0, and
the two message lists differ. -/
theorem claim1_counterexample :
    ({ target := 1, dpid := 1, role := Role.MASTER, generation_id := 1 } : RoleMsg)
      ∈ (distribute_switches ex_st01 [2, 1]).2 ∧
    ({ target := 0, dpid := 1, role := Role.MASTER, generation_id := 1 } : RoleMsg)
      ∉ (distribute_switches ex_st01 [2, 1]).2 ∧
    ({ target := 0, dpid := 1, role := Role.MASTER, generation_id := 1 } : RoleMsg)
      ∈ (distribute_switches_spec_sorted ex_st01 [2, 1]).2 ∧
    (distribute_switches ex_st01 [2, 1]).2 ≠
      (distribute_switches_spec_sorted ex_st01 [2, 1]).2 := by decide

/-- C2 (amended): when the member set or the switch list is empty, the
round posts no role messages, but the generation counter is still
incremented: the increment precedes the emptiness check. -/
theorem claim2_empty_round (st : BalancerState) (sw : List ℕ)
    (h : st.active_controllers = ∅ ∨ sw = []) :
    (distribute_switches st sw).2 = [] ∧
    (distribute_switches st sw).1.CURRENT_GEN_ID = st.CURRENT_GEN_ID + 1 := by
  have hcond : sorted_ids st.active_controllers = [] ∨ sw = [] := by
    rcases h with h | h
    · exact Or.inl (sorted_ids_eq_nil.mpr h)
    · exact Or.inr h
  refine ⟨?_, distribute_switches_gen st sw⟩
  unfold distribute_switches
  dsimp only
  rw [if_pos hcond]

/-- Witness for C2 with an empty switch list: no messages, counter
bumped from 0 to 1. -/
theorem claim2_empty_round_witness :
    (ex_st01.active_controllers = ∅ ∨ ([] : List ℕ) = []) ∧
    (distribute_switches ex_st01 []).2 = [] ∧
    (distribute_switches ex_st01 []).1.CURRENT_GEN_ID =
      ex_st01.CURRENT_GEN_ID + 1 :=
  ⟨Or.inr rfl, claim2_empty_round ex_st01 [] (Or.inr rfl)⟩

/-- C2 counterexample: with two live controllers and an empty switch
list, `distribute_switches` increments the generation counter from 0 to
1 — it does not "return with the generation counter unchanged". -/
theorem claim2_counterexample :
    (distribute_switches ex_st01 []).1.CURRENT_GEN_ID = 1 ∧
    (distribute_switches ex_st01 []).1.CURRENT_GEN_ID ≠
      ex_st01.CURRENT_GEN_ID := by decide

/-- C3: over any sequence of supervisor operations, the role messages of
a later redistribution round carry strictly greater generation ids than
those of any earlier round. -/
theorem claim3_generation_monotone (st : BalancerState) (ops : List LBOp) :
    List.Pairwise
      (fun a b => ∀ m1 ∈ a.2, ∀ m2 ∈ b.2,
        m1.generation_id < m2.generation_id)
      (runTrace st ops) := by
  induction ops generalizing st with
  | nil => exact List.Pairwise.nil
  | cons op rest ih =>
      have hshape : runTrace st (op :: rest) =
          applyOp st op :: runTrace (applyOp st op).1 rest := rfl
      rw [hshape]
      refine List.Pairwise.cons ?_ (ih _)
      intro b hb m1 hm1 m2 hm2
      exact lt_of_le_of_lt ((applyOp_gen_spec st op).2 m1 hm1).2
        (runTrace_msg_gt rest (applyOp st op).1 b hb m2 hm2)

/-- C4: with more than `MIN_CONTROLLERS` live members, `scale_down`
chooses the highest-numbered live id, removes it from the member set
before redistributing, and so no role message of the round — in
particular no MASTER — targets the victim. -/
theorem claim4_scale_down_victim (st : BalancerState) (sw : List ℕ) (now : ℤ)
    (h : MIN_CONTROLLERS < st.active_controllers.card) :
    (scale_down st sw now).victim =
      some (WithBot.unbot' 0 st.active_controllers.max) ∧
    WithBot.unbot' 0 st.active_controllers.max ∈ st.active_controllers ∧
    (∀ c ∈ st.active_controllers,
        c ≤ WithBot.unbot' 0 st.active_controllers.max) ∧
    (scale_down st sw now).state.active_controllers =
      st.active_controllers.erase
        (WithBot.unbot' 0 st.active_controllers.max) ∧
    ∀ m ∈ (scale_down st sw now).msgs,
      m.target ≠ WithBot.unbot' 0 st.active_controllers.max ∧
      m.target ∈ st.active_controllers.erase
        (WithBot.unbot' 0 st.active_controllers.max) := by
  have hne : st.active_controllers.Nonempty :=
    Finset.card_pos.mp (lt_of_le_of_lt (Nat.zero_le _) h)
  have hmax := max_member st.active_controllers hne
  have hnot : ¬ st.active_controllers.card ≤ MIN_CONTROLLERS := not_le.mpr h
  unfold scale_down
  rw [if_neg hnot]
  dsimp only
  refine ⟨rfl, hmax.1, hmax.2, ?_, ?_⟩
  · rw [distribute_switches_fst]
    exact Finset.erase_idem
  · intro m hm
    have ht := distribute_switches_msg_target _ sw hm
    exact ⟨Finset.ne_of_mem_erase ht, ht⟩

/-- Witness for C4 at members `{0, 1, 2}`: the victim is controller 2
and the surviving member set is `{0, 1}`. -/
theorem claim4_scale_down_victim_witness :
    MIN_CONTROLLERS < ex_st012.active_controllers.card ∧
    (scale_down ex_st012 [7, 8] 5).victim =
      some (WithBot.unbot' 0 ex_st012.active_controllers.max) ∧
    (scale_down ex_st012 [7, 8] 5).state.active_controllers =
      ex_st012.active_controllers.erase
        (WithBot.unbot' 0 ex_st012.active_controllers.max) :=
  ⟨by decide,
   (claim4_scale_down_victim ex_st012 [7, 8] 5 (by decide)).1,
   (claim4_scale_down_victim ex_st012 [7, 8] 5 (by decide)).2.2.2.1⟩

/-- C5: on a tick at which at least one controller's fetch is
unreachable, every such dead id is removed from the member set with its
previous metric sample dropped, the data-plane rewire and a role
redistribution are invoked (one generation increment), the action time
is stamped with the tick time, and no scaling decision is taken on that
tick. -/
theorem claim5_failover_tick (st : BalancerState) (fetch : ℕ → Option ℕ)
    (sw : List ℕ) (now : ℤ) (auto : Bool) (h : dead_ids st fetch ≠ []) :
    (∀ d ∈ dead_ids st fetch,
        d ∉ (run_tick st fetch sw now auto).state.active_controllers ∧
        (run_tick st fetch sw now auto).state.previous_metrics d = none) ∧
    (run_tick st fetch sw now auto).rewired.isSome = true ∧
    (run_tick st fetch sw now auto).state.CURRENT_GEN_ID =
      st.CURRENT_GEN_ID + 1 ∧
    (run_tick st fetch sw now auto).state.last_scale_action_time = now ∧
    (run_tick st fetch sw now auto).decision = none := by
  have key := get_traffic_metrics_failover st fetch sw now h
  rw [run_tick_eq]
  dsimp only
  set m := get_traffic_metrics st fetch sw now with hmdef
  set n := m.state.active_controllers.card with hndef
  set avg := (if 0 < n then m.totalPps / (n : ℚ) else 0) with havgdef
  have hcool : now - m.state.last_scale_action_time ≤ COOLDOWN_TIME := by
    rw [key.2.2.2.1]
    simp [COOLDOWN_TIME]
  have hnone : (scaling_decision m.state n avg now auto).2 = none :=
    scaling_decision_none_of_cooldown m.state n avg now auto hcool
  have hfst : (scaling_decision m.state n avg now auto).1 = m.state :=
    scaling_decision_fst_of_none m.state n avg now auto hnone
  rw [hfst]
  exact ⟨key.1, key.2.1, key.2.2.1, key.2.2.2.1, hnone⟩

/-- Witness for C5: members `{0, 1, 2}`, controller 1 unreachable. -/
theorem claim5_failover_tick_witness :
    dead_ids ex_st012 ex_fetch ≠ [] ∧
    ((∀ d ∈ dead_ids ex_st012 ex_fetch,
        d ∉ (run_tick ex_st012 ex_fetch [1, 2] 3 true).state.active_controllers ∧
        (run_tick ex_st012 ex_fetch [1, 2] 3 true).state.previous_metrics d = none) ∧
      (run_tick ex_st012 ex_fetch [1, 2] 3 true).rewired.isSome = true ∧
      (run_tick ex_st012 ex_fetch [1, 2] 3 true).state.CURRENT_GEN_ID =
        ex_st012.CURRENT_GEN_ID + 1 ∧
      (run_tick ex_st012 ex_fetch [1, 2] 3 true).state.last_scale_action_time = 3 ∧
      (run_tick ex_st012 ex_fetch [1, 2] 3 true).decision = none) :=
  ⟨by decide, claim5_failover_tick ex_st012 ex_fetch [1, 2] 3 true (by decide)⟩

/-- C6 (amended): in the ryu balancer, any tick taken while
`now - lastScaleAt ≤ COOLDOWN_TIME` takes no scaling decision (even if a
same-tick failover restamps the time), so a scale action at `t0`
excludes decisions throughout `(t0, t0 + COOLDOWN_TIME]`; the standalone
balancer only skips while `now - lastScaleAt < COOLDOWN_TIME`, so its
exclusion window is the open interval `(t0, t0 + COOLDOWN_TIME)`. -/
theorem claim6_cooldown (st : BalancerState) (fetch : ℕ → Option ℕ)
    (sw : List ℕ) (now : ℤ) (auto : Bool)
    (h : now - st.last_scale_action_time ≤ COOLDOWN_TIME) :
    (run_tick st fetch sw now auto).decision = none ∧
    ∀ now2 last : ℤ, ∀ avg : ℚ, ∀ num : ℕ,
      now2 - last < COOLDOWN_TIME →
      run_balancer_decision now2 last avg num = none := by
  constructor
  · rw [run_tick_eq]
    dsimp only
    rcases get_traffic_metrics_last st fetch sw now with hl | hl
    · apply scaling_decision_none_of_cooldown
      rw [hl]
      exact h
    · apply scaling_decision_none_of_cooldown
      rw [hl]
      simp [COOLDOWN_TIME]
  · intro now2 last avg num hlt
    unfold run_balancer_decision
    rw [if_pos hlt]

/-- Witness for C6: a tick at time 5 with the last action at time 0 is
inside the cooldown window and decides nothing; the standalone check at
time 9 likewise skips. -/
theorem claim6_cooldown_witness :
    ((5 : ℤ) - ex_st01.last_scale_action_time ≤ COOLDOWN_TIME) ∧
    (run_tick ex_st01 ex_live_fetch [1] 5 true).decision = none ∧
    run_balancer_decision 9 0 80 2 = none :=
  ⟨by decide,
   (claim6_cooldown ex_st01 ex_live_fetch [1] 5 true (by decide)).1,
   (claim6_cooldown ex_st01 ex_live_fetch [1] 5 true (by decide)).2
     9 0 80 2 (by decide)⟩

/-- C6 counterexample: the standalone balancer takes a scale-up decision
at exactly `t0 + COOLDOWN_TIME` (here `t0 = 0`, tick at time 10, average
load 80 over 2 members) — an instant the claim's interval
`(t0, t0 + COOLDOWN_TIME]` asserts to be decision-free. -/
theorem claim6_counterexample :
    run_balancer_decision 10 0 80 2 = some Decision.scaleUp ∧
    (10 : ℤ) - 0 ≤ COOLDOWN_TIME := by decide

/-- C7: `scale_up` invoked with at least `MAX_CONTROLLERS` live members
allocates no controller id, starts no instance, posts no role messages
and leaves the membership set unchanged. -/
theorem claim7_scale_up_max (st : BalancerState) (sw : List ℕ) (ok : Bool)
    (now : ℤ) (h : MAX_CONTROLLERS ≤ st.active_controllers.card) :
    (scale_up st sw ok now).allocated = none ∧
    (scale_up st sw ok now).msgs = [] ∧
    (scale_up st sw ok now).state.active_controllers =
      st.active_controllers := by
  rw [scale_up_reject st sw ok now h]
  exact ⟨rfl, rfl, rfl⟩

/-- Witness for C7 at the five-member state. -/
theorem claim7_scale_up_max_witness :
    MAX_CONTROLLERS ≤ ex_st5.active_controllers.card ∧
    (scale_up ex_st5 [1] true 4).allocated = none ∧
    (scale_up ex_st5 [1] true 4).msgs = [] ∧
    (scale_up ex_st5 [1] true 4).state.active_controllers =
      ex_st5.active_controllers :=
  ⟨by decide, claim7_scale_up_max ex_st5 [1] true 4 (by decide)⟩

/-- C8 (amended): on a counter reset (`cur < prev`), the ryu
`_calculate_pps` takes the packet delta to be the current count, so the
returned rate is `cur / dt` rounded to two decimals — never negative;
the standalone `get_total_traffic_rate` instead clamps its delta to `0`,
which is likewise never negative. -/
theorem claim8_counter_reset (st : BalancerState) (c : ℕ) (cur : ℕ) (now : ℤ)
    (pt : ℤ) (pc : ℕ) (hprev : st.previous_metrics c = some (pt, pc))
    (hreset : cur < pc) :
    (calculate_pps st c cur now).2 =
      round2 ((cur : ℚ) /
        (if now - pt ≤ 0 then (1 : ℚ) / 1000 else ((now - pt : ℤ) : ℚ))) ∧
    0 ≤ (calculate_pps st c cur now).2 ∧
    standalone_delta cur pc = 0 ∧
    0 ≤ standalone_delta cur pc := by
  have hneg : (cur : ℤ) - (pc : ℤ) < 0 := by
    have : (cur : ℤ) < (pc : ℤ) := by exact_mod_cast hreset
    omega
  have heq : (calculate_pps st c cur now).2 =
      round2 ((cur : ℚ) /
        (if now - pt ≤ 0 then (1 : ℚ) / 1000 else ((now - pt : ℤ) : ℚ))) := by
    unfold calculate_pps
    dsimp only
    rw [hprev]
    dsimp only [Option.getD]
    rw [if_pos hneg]
    norm_cast
  refine ⟨heq, ?_, ?_, ?_⟩
  · rw [heq]
    apply round2_nonneg
    apply div_nonneg (Nat.cast_nonneg cur)
    split_ifs with hdt
    · norm_num
    · have : (0 : ℤ) < now - pt := by omega
      exact_mod_cast le_of_lt this
  · unfold standalone_delta
    dsimp only
    rw [if_pos hneg]
  · unfold standalone_delta
    dsimp only
    rw [if_pos hneg]

/-- Witness for C8: previous sample `(0, 10)`, current count 5 at time 1. -/
theorem claim8_counter_reset_witness :
    ex_stm.previous_metrics 0 = some (0, 10) ∧ (5 : ℕ) < 10 ∧
    ((calculate_pps ex_stm 0 5 1).2 =
        round2 ((5 : ℚ) /
          (if (1 : ℤ) - 0 ≤ 0 then (1 : ℚ) / 1000 else (((1 : ℤ) - 0 : ℤ) : ℚ))) ∧
      0 ≤ (calculate_pps ex_stm 0 5 1).2 ∧
      standalone_delta 5 10 = 0 ∧
      0 ≤ standalone_delta 5 10) :=
  ⟨by decide, by decide,
   claim8_counter_reset ex_stm 0 5 1 0 10 (by decide) (by decide)⟩

/-- C8 counterexample: in the standalone `get_total_traffic_rate`, a
reset with current count 5 and previous count 10 yields packet delta 0,
not the current count 5 that the claim prescribes for every rate
computation. -/
theorem claim8_counterexample :
    standalone_delta 5 10 = 0 ∧ standalone_delta 5 10 ≠ 5 := by decide

/-- C9 (amended): `scale_up` and `scale_down` assign `is_scaling`
exactly once — to false, in their `finally` clause — so on every path,
exception and early-return paths included, the flag is false on
completion; the operations never set it to true themselves.  The true
assignment is made by the monitoring loop's decision step before it
spawns the worker thread. -/
theorem claim9_scaling_flag (st : BalancerState) (sw : List ℕ) (ok : Bool)
    (now : ℤ) (stD : BalancerState) (n : ℕ) (avg : ℚ) (nowD : ℤ) (auto : Bool)
    (hsome : ((scaling_decision stD n avg nowD auto).2).isSome = true) :
    (scale_up st sw ok now).scalingWrites = [false] ∧
    (scale_up st sw ok now).state.is_scaling = false ∧
    (scale_down st sw now).scalingWrites = [false] ∧
    (scale_down st sw now).state.is_scaling = false ∧
    (∀ stf : BalancerState, ∀ t : ℤ, (scaling_finally stf t).is_scaling = false) ∧
    (scaling_decision stD n avg nowD auto).1.is_scaling = true := by
  refine ⟨?_, ?_, ?_, ?_, fun _ _ => rfl,
    (scaling_decision_some_scaling _ _ _ _ _ hsome).1⟩
  · unfold scale_up
    split_ifs <;> rfl
  · unfold scale_up
    split_ifs <;> rfl
  · unfold scale_down
    split_ifs <;> rfl
  · unfold scale_down
    split_ifs <;> rfl

/-- Witness for C9: a concrete worker call and a concrete firing
decision (average load 80 over 2 members, cooldown long expired). -/
theorem claim9_scaling_flag_witness :
    ((scaling_decision ex_st01 2 80 20 true).2).isSome = true ∧
    ((scale_up ex_st012 [4] true 7).scalingWrites = [false] ∧
      (scale_up ex_st012 [4] true 7).state.is_scaling = false ∧
      (scale_down ex_st012 [4] 7).scalingWrites = [false] ∧
      (scale_down ex_st012 [4] 7).state.is_scaling = false ∧
      (∀ stf : BalancerState, ∀ t : ℤ, (scaling_finally stf t).is_scaling = false) ∧
      (scaling_decision ex_st01 2 80 20 true).1.is_scaling = true) :=
  ⟨by decide, claim9_scaling_flag ex_st012 [4] true 7 ex_st01 2 80 20 true (by decide)⟩

/-- C9 counterexample: an API-route `scale_up` from a state with
`is_scaling = false` performs exactly one flag assignment, `false`
(the `finally` write): it never sets `is_scaling` to true for its
duration; likewise `scale_down`. -/
theorem claim9_counterexample :
    (scale_up ex_st01 [1] true 5).scalingWrites = [false] ∧
    true ∉ (scale_up ex_st01 [1] true 5).scalingWrites ∧
    (scale_up ex_st01 [1] true 5).state.is_scaling = false ∧
    (scale_down ex_st012 [1] 5).scalingWrites = [false] ∧
    true ∉ (scale_down ex_st012 [1] 5).scalingWrites := by decide

/-- C10: the `/status` `is_scaling` field equals
`(now - lastScaleAt) < COOLDOWN_TIME`: it is insensitive to the internal
`is_scaling` flag, true exactly inside the cooldown window, and in
particular can read false while a scaling worker is mid-warmup (internal
flag true) and true when no worker runs (internal flag false). -/
theorem claim10_status_is_scaling :
    (∀ st : BalancerState, ∀ now : ℤ, ∀ b : Bool,
        status_is_scaling { st with is_scaling := b } now =
          status_is_scaling st now) ∧
    (∀ st : BalancerState, ∀ now : ℤ,
        status_is_scaling st now = true ↔
          now - st.last_scale_action_time < COOLDOWN_TIME) ∧
    status_is_scaling ⟨∅, fun _ => none, 0, true, 0⟩ 10 = false ∧
    status_is_scaling ⟨∅, fun _ => none, 0, false, 0⟩ 5 = true := by
  refine ⟨fun st now b => rfl, fun st now => ?_, by decide, by decide⟩
  simp [status_is_scaling]

end PCNLab
